import Mathlib

/-!
Verification of the bottleneck-detector core
(src/detector_cuellos_botella_corregido.py).

The program models a bakery production line as a 6-state Markov chain with
states `['Amasado', 'Horneado', 'Empaque', 'Reproceso', 'Venta', 'Descarte']`
(indices 0..5).  It builds a 6×6 transition matrix from seven integer flow
counts, extracts the dominant eigenpair with scipy, normalizes the dominant
eigenvector by componentwise absolute value divided by the total, identifies
the bottleneck as the arg-max over the first four (productive) states only,
and classifies stability from the dominant eigenvalue with tolerance 0.001.

Embedding conventions: Python `int` becomes `ℤ`; Python floating arithmetic
is embedded exactly over `ℚ`; the scipy eigen-solver is an external library
call and is treated as an opaque-but-deterministic oracle parameter where a
claim quantifies over whole-pipeline behaviour.
-/

/-- Component 5 of a length-6 vector literal (Mathlib provides the
corresponding simp lemmas only up to index 4). -/
theorem vec_six_val_five {α : Type} (a b c d e f : α) :
    ![a, b, c, d, e, f] 5 = f := rfl

/-- The seven raw flow counts entered by the user
(`self.datos_flujo`, keys `A_to_H` … `R_to_D`; Python `int`s). -/
structure DatosFlujo where
  A_to_H : ℤ
  H_to_E : ℤ
  H_to_R : ℤ
  E_to_V : ℤ
  E_to_R : ℤ
  R_to_H : ℤ
  R_to_D : ℤ

/-- `total_h = datos_flujo['H_to_E'] + datos_flujo['H_to_R']` (line 137). -/
def total_h (d : DatosFlujo) : ℤ := d.H_to_E + d.H_to_R

/-- `total_e = datos_flujo['E_to_V'] + datos_flujo['E_to_R']` (line 143). -/
def total_e (d : DatosFlujo) : ℤ := d.E_to_V + d.E_to_R

/-- `total_r = datos_flujo['R_to_H'] + datos_flujo['R_to_D']` (line 149). -/
def total_r (d : DatosFlujo) : ℤ := d.R_to_H + d.R_to_D

/-- `construir_matriz_transicion` (lines 122-158): starts from the 6×6 zero
matrix, unconditionally sets `M[0,1] = 1.0`, fills rows 1 (Horneado),
2 (Empaque) and 3 (Reproceso) with flow ratios only when the corresponding
total is `> 0` (otherwise those rows stay all zero), and sets the absorbing
self-loops `M[4,4] = M[5,5] = 1.0`. -/
def construir_matriz_transicion (d : DatosFlujo) : Fin 6 → Fin 6 → ℚ :=
  ![![0, 1, 0, 0, 0, 0],
    if 0 < total_h d then
      ![0, 0, (d.H_to_E : ℚ) / (total_h d : ℚ), (d.H_to_R : ℚ) / (total_h d : ℚ), 0, 0]
    else ![0, 0, 0, 0, 0, 0],
    if 0 < total_e d then
      ![0, 0, 0, (d.E_to_R : ℚ) / (total_e d : ℚ), (d.E_to_V : ℚ) / (total_e d : ℚ), 0]
    else ![0, 0, 0, 0, 0, 0],
    if 0 < total_r d then
      ![0, (d.R_to_H : ℚ) / (total_r d : ℚ), 0, 0, 0, (d.R_to_D : ℚ) / (total_r d : ℚ)]
    else ![0, 0, 0, 0, 0, 0],
    ![0, 0, 0, 0, 1, 0],
    ![0, 0, 0, 0, 0, 1]]

/-- Normalization of the dominant eigenvector (lines 214-215):
`v = np.abs(v); v = v / v.sum()`, i.e. componentwise absolute value divided
by the sum of absolute values.  The Python code performs the division
unconditionally; there is no zero-sum check and no exception path. -/
def normalizar_autovector (v : Fin 6 → ℚ) : Fin 6 → ℚ :=
  fun i => |v i| / ∑ j, |v j|

/-- `valores_productivos = self.autovector_dominante[:4]` (line 239):
the length-4 slice of the distribution at the four productive states. -/
def valores_productivos (v : Fin 6 → ℚ) : Fin 4 → ℚ :=
  ![v 0, v 1, v 2, v 3]

/-- `np.argmax` on a length-4 vector, unrolled: start with index 0 as the
current best and replace it only on a strictly larger value, so the first
occurrence of the maximum wins. -/
def np_argmax (w : Fin 4 → ℚ) : Fin 4 :=
  let b1 : Fin 4 := if w 0 < w 1 then 1 else 0
  let b2 : Fin 4 := if w b1 < w 2 then 2 else b1
  if w b2 < w 3 then 3 else b2

/-- `identificar_cuello_botella` (lines 238-244): arg-max of the dominant
distribution restricted to the four productive states; the returned index
lives in `Fin 4` because the code slices `[:4]` before the arg-max. -/
def identificar_cuello_botella (v : Fin 6 → ℚ) : Fin 4 :=
  np_argmax (valores_productivos v)

/-- `self.etapas` (line 36). -/
def etapas : Fin 6 → String :=
  !["Amasado", "Horneado", "Empaque", "Reproceso", "Venta", "Descarte"]

/-- `etapas_productivas = self.etapas[:4]` (line 238), the length-4 slice of
`etapas`. -/
def etapas_productivas : Fin 4 → String :=
  ![etapas 0, etapas 1, etapas 2, etapas 3]

/-- `self.cuello_botella_nombre = etapas_productivas[max_idx_productivo]`
(line 245). -/
def cuello_botella_nombre (v : Fin 6 → ℚ) : String :=
  etapas_productivas (identificar_cuello_botella v)

/-- The three-way verdict of `analizar_estabilidad_sistema`: the returned
string together with the loss percentage the lossy branch computes and
reports (line 281: `perdida = (1 - self.autovalor_dominante) * 100`). -/
inductive Estabilidad where
  | estable : Estabilidad
  | conPerdidas : ℚ → Estabilidad
  | inestable : Estabilidad
  deriving DecidableEq

/-- `analizar_estabilidad_sistema` (lines 267-291):
`if abs(λ - 1.0) < 0.001: "ESTABLE" elif λ < 1.0: "CON_PÉRDIDAS"
(reporting `(1 - λ) * 100` percent lost per cycle) `else: "INESTABLE"`. -/
def analizar_estabilidad_sistema (lam : ℚ) : Estabilidad :=
  if |lam - 1| < 1/1000 then Estabilidad.estable
  else if lam < 1 then Estabilidad.conPerdidas ((1 - lam) * 100)
  else Estabilidad.inestable

/-- The string the classifier assigns to each verdict
(`estabilidad = "ESTABLE" / "CON_PÉRDIDAS" / "INESTABLE"`, lines 279-289). -/
def etiqueta_estabilidad : Estabilidad → String
  | Estabilidad.estable => "ESTABLE"
  | Estabilidad.conPerdidas _ => "CON_PÉRDIDAS"
  | Estabilidad.inestable => "INESTABLE"

/-- The `estabilidad_sistema` field of `generar_reporte` (line 491):
`'ESTABLE' if abs(λ - 1.0) < 0.001 else 'INESTABLE'` — a two-way
re-computation that never produces a lossy label. -/
def reporte_estabilidad_sistema (lam : ℚ) : String :=
  if |lam - 1| < 1/1000 then "ESTABLE" else "INESTABLE"

/-- The dominant eigenpair as produced by `calcular_autovalores_scipy`
(lines 209-210) before normalization: `self.autovalor_dominante` and
`self.autovector_dominante`. -/
structure ResultadoEigen where
  autovalor_dominante : ℚ
  autovector_dominante : Fin 6 → ℚ

/-- The observable outputs of one analysis run: the matrix, the normalized
dominant distribution, the bottleneck index and the stability verdict. -/
structure ResultadoAnalisis where
  matriz : Fin 6 → Fin 6 → ℚ
  distribucion : Fin 6 → ℚ
  cuello_botella : Fin 4
  estabilidad : Estabilidad

/-- The pipeline run by `main` (lines 542-545), parameterized by the scipy
eigen-solver `eig`, which is a deterministic function of the matrix alone:
build the matrix, take the dominant eigenpair, normalize the eigenvector,
identify the bottleneck and classify stability. -/
def pipeline (eig : (Fin 6 → Fin 6 → ℚ) → ResultadoEigen) (d : DatosFlujo) :
    ResultadoAnalisis :=
  let m := construir_matriz_transicion d
  let r := eig m
  let dist := normalizar_autovector r.autovector_dominante
  ⟨m, dist, identificar_cuello_botella dist,
    analizar_estabilidad_sistema r.autovalor_dominante⟩

/-- The bakery default data set (lines 59-67). -/
def datosEjemplo : DatosFlujo :=
  ⟨1000, 944, 56, 921, 23, 59, 20⟩

/-- The bakery data with Horneado given zero total outgoing flow
(`H_to_E = H_to_R = 0`). -/
def datosSinSalidaH : DatosFlujo :=
  ⟨1000, 0, 0, 921, 23, 59, 20⟩

/-- The bakery data with the Amasado→Horneado count set to 0. -/
def datosEjemploSinA : DatosFlujo :=
  ⟨0, 944, 56, 921, 23, 59, 20⟩

/-- The all-zero eigenvector: its componentwise absolute values sum to 0. -/
def vCero : Fin 6 → ℚ := fun _ => 0

/-- A normalized distribution in which the absorbing state Venta (index 4)
holds 50% of the mass, more than any productive state. -/
def vAbsorbenteDominante : Fin 6 → ℚ :=
  ![1/10, 1/5, 1/20, 1/20, 1/2, 1/10]

/-- A trivial stand-in eigen-solver used to instantiate pipeline-level
statements at a concrete oracle. -/
def eigTrivial : (Fin 6 → Fin 6 → ℚ) → ResultadoEigen :=
  fun _ => ⟨1, fun _ => 1⟩

/-- An unnormalized eigenvector with mixed signs whose absolute values sum
to 4. -/
def vMixto : Fin 6 → ℚ := ![2, -1, 0, 0, 0, 1]

/-! ## Helper lemmas -/

theorem forall_fin_four {p : Fin 4 → Prop} : (∀ j, p j) ↔ p 0 ∧ p 1 ∧ p 2 ∧ p 3 := by
  constructor
  · intro h
    exact ⟨h 0, h 1, h 2, h 3⟩
  · rintro ⟨h0, h1, h2, h3⟩ j
    fin_cases j <;> assumption

/-- `np_argmax` returns an index carrying the maximum value, and among equal
maxima the lowest index (the first occurrence wins). -/
theorem np_argmax_spec (w : Fin 4 → ℚ) :
    (∀ j, w j ≤ w (np_argmax w)) ∧ ∀ j, w j = w (np_argmax w) → np_argmax w ≤ j := by
  unfold np_argmax
  dsimp only
  split_ifs with h1 h2 h3 h4 h5 h6 h7 <;>
    push_neg at * <;>
    refine ⟨?_, ?_⟩ <;>
    rw [forall_fin_four] <;>
    refine ⟨?_, ?_, ?_, ?_⟩ <;>
    (try intro hEq) <;>
    first
      | decide
      | linarith

theorem construir_fila_cero (d : DatosFlujo) :
    construir_matriz_transicion d 0 = ![0, 1, 0, 0, 0, 0] := rfl

theorem construir_fila_uno (d : DatosFlujo) :
    construir_matriz_transicion d 1 =
      if 0 < total_h d then
        ![0, 0, (d.H_to_E : ℚ) / (total_h d : ℚ), (d.H_to_R : ℚ) / (total_h d : ℚ), 0, 0]
      else ![0, 0, 0, 0, 0, 0] := rfl

theorem construir_fila_dos (d : DatosFlujo) :
    construir_matriz_transicion d 2 =
      if 0 < total_e d then
        ![0, 0, 0, (d.E_to_R : ℚ) / (total_e d : ℚ), (d.E_to_V : ℚ) / (total_e d : ℚ), 0]
      else ![0, 0, 0, 0, 0, 0] := rfl

theorem construir_fila_tres (d : DatosFlujo) :
    construir_matriz_transicion d 3 =
      if 0 < total_r d then
        ![0, (d.R_to_H : ℚ) / (total_r d : ℚ), 0, 0, 0, (d.R_to_D : ℚ) / (total_r d : ℚ)]
      else ![0, 0, 0, 0, 0, 0] := rfl

theorem construir_fila_cuatro (d : DatosFlujo) :
    construir_matriz_transicion d 4 = ![0, 0, 0, 0, 1, 0] := rfl

theorem construir_fila_cinco (d : DatosFlujo) :
    construir_matriz_transicion d 5 = ![0, 0, 0, 0, 0, 1] := rfl

/-! ## Claims -/

/-- C1: for every normalized dominant distribution (componentwise
non-negative, summing to 1), `identificar_cuello_botella` returns the state
achieving the maximum distribution value among the four productive states
only, breaking ties by lowest index in the fixed state ordering; the
returned state name is always one of the four productive ones and is never
"Venta" or "Descarte", even when an absorbing state's value exceeds every
productive state's value (the result index is confined to `Fin 4` by the
`[:4]` slice). -/
theorem c1_cuello_botella_productivo (v : Fin 6 → ℚ)
    (hnn : ∀ i, 0 ≤ v i) (hsum : (∑ i, v i) = 1) :
    (∀ j : Fin 4, valores_productivos v j ≤
        valores_productivos v (identificar_cuello_botella v)) ∧
    (∀ j : Fin 4, valores_productivos v j =
        valores_productivos v (identificar_cuello_botella v) →
        identificar_cuello_botella v ≤ j) ∧
    cuello_botella_nombre v ∈ ["Amasado", "Horneado", "Empaque", "Reproceso"] ∧
    cuello_botella_nombre v ≠ "Venta" ∧
    cuello_botella_nombre v ≠ "Descarte" := by
  obtain ⟨hmax, htie⟩ := np_argmax_spec (valores_productivos v)
  have hname : ∀ i : Fin 4, etapas_productivas i ∈
      ["Amasado", "Horneado", "Empaque", "Reproceso"] ∧
      etapas_productivas i ≠ "Venta" ∧ etapas_productivas i ≠ "Descarte" := by
    decide
  exact ⟨hmax, htie,
    (hname (identificar_cuello_botella v)).1,
    (hname (identificar_cuello_botella v)).2.1,
    (hname (identificar_cuello_botella v)).2.2⟩

/-- C1 witness: on the concrete distribution whose absorbing state Venta
holds 50% of the mass — more than any productive state — the hypotheses
hold and the bottleneck name is still a productive state. -/
theorem c1_testigo :
    (∀ i, 0 ≤ vAbsorbenteDominante i) ∧ (∑ i, vAbsorbenteDominante i) = 1 ∧
    (∀ j : Fin 4, valores_productivos vAbsorbenteDominante j < vAbsorbenteDominante 4) ∧
    cuello_botella_nombre vAbsorbenteDominante ∈
      ["Amasado", "Horneado", "Empaque", "Reproceso"] ∧
    cuello_botella_nombre vAbsorbenteDominante ≠ "Venta" ∧
    cuello_botella_nombre vAbsorbenteDominante ≠ "Descarte" := by
  have h1 : ∀ i, 0 ≤ vAbsorbenteDominante i := by
    intro i
    fin_cases i <;> norm_num [vAbsorbenteDominante, vec_six_val_five]
  have h2 : (∑ i, vAbsorbenteDominante i) = 1 := by
    norm_num [Fin.sum_univ_six, vAbsorbenteDominante, vec_six_val_five]
  have h3 : ∀ j : Fin 4, valores_productivos vAbsorbenteDominante j < vAbsorbenteDominante 4 := by
    intro j
    fin_cases j <;> norm_num [valores_productivos, vAbsorbenteDominante, vec_six_val_five]
  obtain ⟨-, -, m1, m2, m3⟩ := c1_cuello_botella_productivo vAbsorbenteDominante h1 h2
  exact ⟨h1, h2, h3, m1, m2, m3⟩

/-- C2 counterexample: on flow data with `H_to_E = H_to_R = 0` the matrix
builder raises nothing (the embedded function is total, mirroring the
Python code, which contains no validation and no raise statement) and
produces a transition matrix whose Horneado row is all-zero — refuting the
claim that it raises `InvalidFlowData` and never produces a zero row. -/
theorem c2_contraejemplo :
    construir_matriz_transicion datosSinSalidaH 1 = ![0, 0, 0, 0, 0, 0] := by
  decide

/-- C2 amended: when a productive state among Horneado, Empaque, Reproceso
has non-positive total outgoing flow, `construir_matriz_transicion` raises
no error and silently leaves the corresponding row all-zero; negative
counts are likewise never validated (no `InvalidFlowData` exists in the
code). -/
theorem c2_fila_cero_sin_error (d : DatosFlujo) :
    (total_h d ≤ 0 → construir_matriz_transicion d 1 = ![0, 0, 0, 0, 0, 0]) ∧
    (total_e d ≤ 0 → construir_matriz_transicion d 2 = ![0, 0, 0, 0, 0, 0]) ∧
    (total_r d ≤ 0 → construir_matriz_transicion d 3 = ![0, 0, 0, 0, 0, 0]) := by
  refine ⟨fun h => ?_, fun h => ?_, fun h => ?_⟩
  · rw [construir_fila_uno, if_neg (not_lt.mpr h)]
  · rw [construir_fila_dos, if_neg (not_lt.mpr h)]
  · rw [construir_fila_tres, if_neg (not_lt.mpr h)]

/-- C2 witness: the amended statement applied to the concrete data set with
Horneado's outgoing flow zeroed. -/
theorem c2_testigo :
    total_h datosSinSalidaH ≤ 0 ∧
    construir_matriz_transicion datosSinSalidaH 1 = ![0, 0, 0, 0, 0, 0] :=
  ⟨by decide, (c2_fila_cero_sin_error datosSinSalidaH).1 (by decide)⟩

/-- C3: with fixed tolerance ε = 1/1000, the stability classifier returns
`estable` when |λ - 1| < ε, `conPerdidas` (lossy) when λ < 1 - ε — the loss
fraction 1 - λ being reported by the code as the percentage (1 - λ)·100 —
and `inestable` when λ > 1 + ε; in particular λ = 1 is stable, λ = 0.95 is
lossy with loss fraction 1 - 0.95 = 0.05 (reported as 5%), and λ = 1.01 is
unstable. -/
theorem c3_clasificacion_estabilidad (lam : ℚ) :
    (|lam - 1| < 1/1000 → analizar_estabilidad_sistema lam = Estabilidad.estable) ∧
    (lam < 1 - 1/1000 →
      analizar_estabilidad_sistema lam = Estabilidad.conPerdidas ((1 - lam) * 100)) ∧
    (1 + 1/1000 < lam → analizar_estabilidad_sistema lam = Estabilidad.inestable) ∧
    analizar_estabilidad_sistema 1 = Estabilidad.estable ∧
    analizar_estabilidad_sistema (95/100) = Estabilidad.conPerdidas ((1 - 95/100) * 100) ∧
    (1 - 95/100 : ℚ) = 5/100 ∧
    analizar_estabilidad_sistema (101/100) = Estabilidad.inestable := by
  have habs1 := le_abs_self (lam - 1)
  have habs2 := neg_abs_le (lam - 1)
  refine ⟨fun h => ?_, fun h => ?_, fun h => ?_, ?_, ?_, by norm_num, ?_⟩
  · unfold analizar_estabilidad_sistema
    rw [if_pos h]
  · unfold analizar_estabilidad_sistema
    rw [if_neg (by push_neg; linarith), if_pos (by linarith)]
  · unfold analizar_estabilidad_sistema
    rw [if_neg (by push_neg; linarith), if_neg (not_lt.mpr (by linarith))]
  · norm_num [analizar_estabilidad_sistema]
  · norm_num [analizar_estabilidad_sistema, abs_lt]
  · norm_num [analizar_estabilidad_sistema, abs_lt]

/-- C3 witness: the lossy branch applied at λ = 0.95. -/
theorem c3_testigo :
    ((95 : ℚ)/100 < 1 - 1/1000) ∧
    analizar_estabilidad_sistema (95/100) = Estabilidad.conPerdidas ((1 - 95/100) * 100) :=
  ⟨by norm_num, (c3_clasificacion_estabilidad (95/100)).2.1 (by norm_num)⟩

/-- C4: for every flow data input, each productive row with positive
outgoing total holds the recorded-count ratios (Amasado's single recorded
destination Horneado gets `A_to_H / A_to_H = 1`) and zeros elsewhere, and
the absorbing rows Venta and Descarte have self-loop entry exactly 1 and
zeros elsewhere unconditionally. -/
theorem c4_entradas_matriz (d : DatosFlujo) :
    (0 < d.A_to_H → construir_matriz_transicion d 0 =
      ![0, (d.A_to_H : ℚ) / (d.A_to_H : ℚ), 0, 0, 0, 0]) ∧
    (0 < total_h d → construir_matriz_transicion d 1 =
      ![0, 0, (d.H_to_E : ℚ) / (total_h d : ℚ), (d.H_to_R : ℚ) / (total_h d : ℚ), 0, 0]) ∧
    (0 < total_e d → construir_matriz_transicion d 2 =
      ![0, 0, 0, (d.E_to_R : ℚ) / (total_e d : ℚ), (d.E_to_V : ℚ) / (total_e d : ℚ), 0]) ∧
    (0 < total_r d → construir_matriz_transicion d 3 =
      ![0, (d.R_to_H : ℚ) / (total_r d : ℚ), 0, 0, 0, (d.R_to_D : ℚ) / (total_r d : ℚ)]) ∧
    construir_matriz_transicion d 4 = ![0, 0, 0, 0, 1, 0] ∧
    construir_matriz_transicion d 5 = ![0, 0, 0, 0, 0, 1] := by
  refine ⟨fun h => ?_, fun h => ?_, fun h => ?_, fun h => ?_,
    construir_fila_cuatro d, construir_fila_cinco d⟩
  · have hA : (d.A_to_H : ℚ) / (d.A_to_H : ℚ) = 1 :=
      div_self (Int.cast_ne_zero.mpr h.ne')
    rw [hA]
    exact construir_fila_cero d
  · rw [construir_fila_uno, if_pos h]
  · rw [construir_fila_dos, if_pos h]
  · rw [construir_fila_tres, if_pos h]

/-- C4 witness: the Horneado row of the bakery data set. -/
theorem c4_testigo :
    0 < total_h datosEjemplo ∧
    construir_matriz_transicion datosEjemplo 1 =
      ![0, 0, (datosEjemplo.H_to_E : ℚ) / (total_h datosEjemplo : ℚ),
        (datosEjemplo.H_to_R : ℚ) / (total_h datosEjemplo : ℚ), 0, 0] :=
  ⟨by decide, (c4_entradas_matriz datosEjemplo).2.1 (by decide)⟩

/-- C5: whenever every productive state's total outgoing flow is positive,
every row of the built transition matrix sums to 1 (hence within the
1e-9 tolerance; the embedding over ℚ is exact). -/
theorem c5_filas_suman_uno (d : DatosFlujo)
    (hA : 0 < d.A_to_H) (hH : 0 < total_h d) (hE : 0 < total_e d) (hR : 0 < total_r d) :
    ∀ i : Fin 6, |(∑ j, construir_matriz_transicion d i j) - 1| < 1/1000000000 := by
  have hHq : (total_h d : ℚ) ≠ 0 := Int.cast_ne_zero.mpr hH.ne'
  have hEq2 : (total_e d : ℚ) ≠ 0 := Int.cast_ne_zero.mpr hE.ne'
  have hRq : (total_r d : ℚ) ≠ 0 := Int.cast_ne_zero.mpr hR.ne'
  have k0 : (∑ j, construir_matriz_transicion d 0 j) = 1 := by
    rw [construir_fila_cero]
    norm_num [Fin.sum_univ_six, vec_six_val_five]
  have k1 : (∑ j, construir_matriz_transicion d 1 j) = 1 := by
    rw [construir_fila_uno, if_pos hH, Fin.sum_univ_six]
    simp only [Matrix.cons_val_zero, Matrix.cons_val_one, Matrix.head_cons,
      Matrix.cons_val_two, Matrix.cons_val_three, Matrix.cons_val_four,
      Matrix.tail_cons, vec_six_val_five]
    field_simp
    unfold total_h
    push_cast
    ring
  have k2 : (∑ j, construir_matriz_transicion d 2 j) = 1 := by
    rw [construir_fila_dos, if_pos hE, Fin.sum_univ_six]
    simp only [Matrix.cons_val_zero, Matrix.cons_val_one, Matrix.head_cons,
      Matrix.cons_val_two, Matrix.cons_val_three, Matrix.cons_val_four,
      Matrix.tail_cons, vec_six_val_five]
    field_simp
    unfold total_e
    push_cast
    ring
  have k3 : (∑ j, construir_matriz_transicion d 3 j) = 1 := by
    rw [construir_fila_tres, if_pos hR, Fin.sum_univ_six]
    simp only [Matrix.cons_val_zero, Matrix.cons_val_one, Matrix.head_cons,
      Matrix.cons_val_two, Matrix.cons_val_three, Matrix.cons_val_four,
      Matrix.tail_cons, vec_six_val_five]
    field_simp
    unfold total_r
    push_cast
    ring
  have k4 : (∑ j, construir_matriz_transicion d 4 j) = 1 := by
    rw [construir_fila_cuatro]
    norm_num [Fin.sum_univ_six, vec_six_val_five]
  have k5 : (∑ j, construir_matriz_transicion d 5 j) = 1 := by
    rw [construir_fila_cinco]
    norm_num [Fin.sum_univ_six, vec_six_val_five]
  intro i
  have hsum : (∑ j, construir_matriz_transicion d i j) = 1 := by
    fin_cases i
    · exact k0
    · exact k1
    · exact k2
    · exact k3
    · exact k4
    · exact k5
  rw [hsum]
  norm_num

/-- C5 witness: row sums of the bakery data set's matrix. -/
theorem c5_testigo :
    0 < datosEjemplo.A_to_H ∧ 0 < total_h datosEjemplo ∧
    0 < total_e datosEjemplo ∧ 0 < total_r datosEjemplo ∧
    |(∑ j, construir_matriz_transicion datosEjemplo 1 j) - 1| < 1/1000000000 :=
  ⟨by decide, by decide, by decide, by decide,
    c5_filas_suman_uno datosEjemplo (by decide) (by decide) (by decide) (by decide) 1⟩

/-- C6: whenever the top eigenvector's componentwise absolute values have a
nonzero sum, the dominant distribution equals the componentwise absolute
value divided by that sum, every component is ≥ 0, and the components sum
to exactly 1 (hence within the 1e-9 tolerance). -/
theorem c6_distribucion_valida (v : Fin 6 → ℚ) (h : (∑ j, |v j|) ≠ 0) :
    (∀ i, normalizar_autovector v i = |v i| / ∑ j, |v j|) ∧
    (∀ i, 0 ≤ normalizar_autovector v i) ∧
    (∑ i, normalizar_autovector v i) = 1 := by
  have hnn : 0 ≤ ∑ j, |v j| := Finset.sum_nonneg fun j _ => abs_nonneg (v j)
  refine ⟨fun i => rfl, fun i => div_nonneg (abs_nonneg (v i)) hnn, ?_⟩
  unfold normalizar_autovector
  rw [← Finset.sum_div, div_self h]

/-- C6 witness: normalization of a mixed-sign eigenvector with absolute
values summing to 4. -/
theorem c6_testigo :
    (∑ j, |vMixto j|) ≠ 0 ∧ (∀ i, 0 ≤ normalizar_autovector vMixto i) ∧
    (∑ i, normalizar_autovector vMixto i) = 1 := by
  have h : (∑ j, |vMixto j|) ≠ 0 := by
    rw [show (∑ j, |vMixto j|) = 4 by
      rw [Fin.sum_univ_six]
      simp only [vMixto, Matrix.cons_val_zero, Matrix.cons_val_one, Matrix.head_cons,
        Matrix.cons_val_two, Matrix.cons_val_three, Matrix.cons_val_four,
        Matrix.tail_cons, vec_six_val_five]
      rw [abs_of_nonneg (by norm_num : (0:ℚ) ≤ 2), abs_of_nonpos (by norm_num : (-1:ℚ) ≤ 0),
        abs_of_nonneg (le_refl (0:ℚ)), abs_of_nonneg (by norm_num : (0:ℚ) ≤ 1)]
      norm_num]
    norm_num
  exact ⟨h, (c6_distribucion_valida vMixto h).2.1, (c6_distribucion_valida vMixto h).2.2⟩

/-- C7 counterexample: at the zero eigenvector (whose absolute values sum
to 0) the normalizer does not fail — the embedded code is a total function
with no exception path, mirroring the Python code, which divides by zero
unconditionally (numpy emits NaN rather than raising); the returned vector
is junk (all zeros under the exact-arithmetic convention), not a
probability distribution and not a `DegenerateEigenvector` failure. -/
theorem c7_contraejemplo :
    normalizar_autovector vCero = vCero := by
  funext i
  simp [normalizar_autovector, vCero]

/-- C7 amended: for every eigenvector whose componentwise absolute values
sum to zero (forcing every component to be zero), the normalizer raises
nothing and returns a vector summing to 0 instead of 1 — there is no
`DegenerateEigenvector` check anywhere in the code. -/
theorem c7_sin_error_en_suma_cero (v : Fin 6 → ℚ) (h : (∑ j, |v j|) = 0) :
    (∀ i, v i = 0) ∧ (∑ i, normalizar_autovector v i) = 0 := by
  have hz : ∀ j ∈ Finset.univ, |v j| = 0 :=
    (Finset.sum_eq_zero_iff_of_nonneg fun j _ => abs_nonneg (v j)).mp h
  refine ⟨fun i => abs_eq_zero.mp (hz i (Finset.mem_univ i)), ?_⟩
  unfold normalizar_autovector
  rw [h]
  simp

/-- C7 witness: the amended statement applied to the zero vector. -/
theorem c7_testigo :
    (∑ j, |vCero j|) = 0 ∧
    ((∀ i, vCero i = 0) ∧ (∑ i, normalizar_autovector vCero i) = 0) :=
  ⟨by simp [vCero], c7_sin_error_en_suma_cero vCero (by simp [vCero])⟩

/-- C8 code bug: at dominant eigenvalue λ = 0.95 the stability classifier
`analizar_estabilidad_sistema` yields the lossy verdict ("CON_PÉRDIDAS",
with loss percentage 5), while `generar_reporte`'s `estabilidad_sistema`
field — computed by the two-way expression
`'ESTABLE' if abs(λ - 1.0) < 0.001 else 'INESTABLE'` — records the run as
"INESTABLE" and exposes no loss fraction, contradicting the claim that the
report agrees with the three-way verdict. -/
theorem c8_reporte_discrepancia :
    analizar_estabilidad_sistema (95/100) = Estabilidad.conPerdidas 5 ∧
    etiqueta_estabilidad (analizar_estabilidad_sistema (95/100)) = "CON_PÉRDIDAS" ∧
    reporte_estabilidad_sistema (95/100) = "INESTABLE" := by
  have h : analizar_estabilidad_sistema (95/100) = Estabilidad.conPerdidas 5 := by
    norm_num [analizar_estabilidad_sistema, abs_lt]
  refine ⟨h, by rw [h]; rfl, by norm_num [reporte_estabilidad_sistema, abs_lt]⟩

/-- C9: two flow data inputs differing only in the `A_to_H` count produce
identical transition matrices — the Amasado row is the constant
[0, 1, 0, 0, 0, 0] regardless of `A_to_H`, including zero — and hence, for
any deterministic eigen-solver, identical eigen results, dominant
distributions, bottleneck results and stability verdicts. -/
theorem c9_independiente_de_A_to_H
    (eig : (Fin 6 → Fin 6 → ℚ) → ResultadoEigen) (d1 d2 : DatosFlujo)
    (h1 : d1.H_to_E = d2.H_to_E) (h2 : d1.H_to_R = d2.H_to_R)
    (h3 : d1.E_to_V = d2.E_to_V) (h4 : d1.E_to_R = d2.E_to_R)
    (h5 : d1.R_to_H = d2.R_to_H) (h6 : d1.R_to_D = d2.R_to_D) :
    construir_matriz_transicion d1 = construir_matriz_transicion d2 ∧
    construir_matriz_transicion d1 0 = ![0, 1, 0, 0, 0, 0] ∧
    pipeline eig d1 = pipeline eig d2 := by
  have hm : construir_matriz_transicion d1 = construir_matriz_transicion d2 := by
    unfold construir_matriz_transicion total_h total_e total_r
    rw [h1, h2, h3, h4, h5, h6]
  refine ⟨hm, construir_fila_cero d1, ?_⟩
  unfold pipeline
  rw [hm]

/-- C9 witness: the bakery data set and its copy with `A_to_H` changed from
1000 to 0, run through the pipeline with a concrete eigen-solver. -/
theorem c9_testigo :
    datosEjemplo.H_to_E = datosEjemploSinA.H_to_E ∧
    datosEjemplo.H_to_R = datosEjemploSinA.H_to_R ∧
    datosEjemplo.E_to_V = datosEjemploSinA.E_to_V ∧
    datosEjemplo.E_to_R = datosEjemploSinA.E_to_R ∧
    datosEjemplo.R_to_H = datosEjemploSinA.R_to_H ∧
    datosEjemplo.R_to_D = datosEjemploSinA.R_to_D ∧
    (construir_matriz_transicion datosEjemplo = construir_matriz_transicion datosEjemploSinA ∧
      construir_matriz_transicion datosEjemplo 0 = ![0, 1, 0, 0, 0, 0] ∧
      pipeline eigTrivial datosEjemplo = pipeline eigTrivial datosEjemploSinA) :=
  ⟨rfl, rfl, rfl, rfl, rfl, rfl,
    c9_independiente_de_A_to_H eigTrivial datosEjemplo datosEjemploSinA
      rfl rfl rfl rfl rfl rfl⟩

/-- C10: the stability classifier is a total function over the embedded
reals assigning one of the three verdicts to every dominant eigenvalue
(exactly one, the three being distinct constructors of `Estabilidad`); the
boundary values the spec's strict inequalities leave unassigned are
classified as the code does: λ = 0.999 exactly is lossy (with reported
loss percentage 0.1, i.e. fraction 0.001) and λ = 1.001 exactly is
unstable. -/
theorem c10_estabilidad_total (lam : ℚ) :
    (analizar_estabilidad_sistema lam = Estabilidad.estable ∨
      analizar_estabilidad_sistema lam = Estabilidad.conPerdidas ((1 - lam) * 100) ∨
      analizar_estabilidad_sistema lam = Estabilidad.inestable) ∧
    analizar_estabilidad_sistema (999/1000) =
      Estabilidad.conPerdidas ((1 - 999/1000) * 100) ∧
    ((1 - 999/1000 : ℚ) * 100) = 1/10 ∧
    analizar_estabilidad_sistema (1001/1000) = Estabilidad.inestable := by
  refine ⟨?_, ?_, by norm_num, ?_⟩
  · unfold analizar_estabilidad_sistema
    split_ifs with h1 h2
    · exact Or.inl rfl
    · exact Or.inr (Or.inl rfl)
    · exact Or.inr (Or.inr rfl)
  · norm_num [analizar_estabilidad_sistema, abs_lt]
  · norm_num [analizar_estabilidad_sistema, abs_lt]
